import Mathlib

/-!
Shallow embedding of the request-logging and log-management pipeline of the
Mayaglyphs repository (`src/server/logger.py` and the log-related endpoint
branches of `src/server/server.py`).

Modelling conventions:
* The filesystem is a map `FS : String → Option (List Char)` from a path to
  the bytes of the file at that path (`none` = the file does not exist).
  Characters stand for bytes; a file's size in bytes is the length of its
  character list.
* A Python function that can raise an uncaught exception is embedded as a
  function returning `Option _`; `none` models an exception propagating to
  the caller (e.g. `os.path.getsize` on a missing path raises
  `FileNotFoundError`).
* Ambient effects are threaded explicitly: `datetime.now()` timestamps are
  parameters, the outbound geo-IP HTTP request is an oracle value of type
  `GeoNet`, and the `user_agents.parse(...).is_bot` library call is an oracle
  `String → Bool`.
* `os.rename` and `open(..., 'a')`/`open(..., 'w')` on an existing directory
  are modelled as always succeeding (the deterministic filesystem has no
  permission errors); `urlparse(p).path` follows CPython 3.11's
  `urllib.parse` for `str` input: tab/CR/LF removal, scheme split, netloc
  split, fragment/query split, and the `;params` split of the last path
  segment for schemes in `uses_params`.
-/

namespace Mayaglyphs

/-- A filesystem state: path → file content (`none` = absent). -/
abbrev FS := String → Option (List Char)

/-- Functional update of one path of a filesystem. -/
def FS.update (fs : FS) (p : String) (v : Option (List Char)) : FS :=
  fun q => if q = p then v else fs q

/-- `LOG_FILE` of `logger.py` (the `logs/requests.log` path, directory part kept relative). -/
def LOG_FILE : String := "logs/requests.log"

/-- `ERROR_LOG_FILE` of `logger.py`. -/
def ERROR_LOG_FILE : String := "logs/errors.log"

/-- `MAX_RETURN = 1000` of `logger.py`. -/
def MAX_RETURN : Nat := 1000

/-- `MAX_LOG_SIZE = 40 * 1024 * 1024` of `logger.py`. -/
def MAX_LOG_SIZE : Nat := 40 * 1024 * 1024

/-- `STATIC_ASSET_EXTENSIONS` of `logger.py`. -/
def STATIC_ASSET_EXTENSIONS : List String :=
  [".css", ".js", ".jpg", ".jpeg", ".png", ".gif", ".svg", ".ico",
   ".woff", ".woff2", ".ttf", ".otf", ".eot", ".map", ".json", ".txt"]

/-- `IGNORED_ROUTES` of `logger.py`. -/
def IGNORED_ROUTES : List String := ["/logs"]

/-- `get_log_file_path(log_type)` of `logger.py`. -/
def get_log_file_path (log_type : String) : String :=
  if log_type = "error" then ERROR_LOG_FILE else LOG_FILE

/-- `get_log_size(log_type)` of `logger.py`: 0 if the file is absent, else its size. -/
def get_log_size (fs : FS) (log_type : String) : Nat :=
  match fs (get_log_file_path log_type) with
  | some c => c.length
  | none => 0

/-- Python `str.lower()` on a character list. -/
def pylower (l : List Char) : List Char := l.map Char.toLower

/-- Python's whitespace set for `str.strip()`. -/
def pyIsSpace (c : Char) : Bool :=
  c = ' ' || c = '\t' || c = '\n' || c = '\r' || c = '\x0b' || c = '\x0c'

/-- Python `str.strip()`: drop whitespace from both ends. -/
def pystrip (l : List Char) : List Char :=
  ((l.dropWhile pyIsSpace).reverse.dropWhile pyIsSpace).reverse

/-- Python `t in s` for strings: `t` occurs as a contiguous substring of `s`
(the empty string occurs in every string). -/
def pyIn (t : List Char) : List Char → Bool
  | [] => t.isEmpty
  | c :: s => t.isPrefixOf (c :: s) || pyIn t s

/-- Python `f.readlines()`: split the file content into its lines, each line
keeping its trailing newline; a final chunk without a newline is also a line. -/
def readlines : List Char → List (List Char)
  | [] => []
  | c :: cs =>
    if c = '\n' then ['\n'] :: readlines cs
    else
      match readlines cs with
      | [] => [[c]]
      | l :: ls => (c :: l) :: ls

/-- The result dictionary of `search_logs`. -/
structure SearchResult where
  results : List (List Char)
  count : Nat
deriving Repr, DecidableEq

/-- The `for line in reversed(lines)` loop body of `search_logs`: collect
stripped matching lines, breaking once `MAX_RETURN` results are collected. -/
def searchLoop (term : List Char) : List (List Char) → List (List Char) → List (List Char)
  | [], results => results
  | l :: ls, results =>
    if pyIn (pylower term) (pylower l) then
      let r := results ++ [pystrip l]
      if MAX_RETURN ≤ r.length then r else searchLoop term ls r
    else searchLoop term ls results

/-- `search_logs(term, log_type)` of `logger.py`. -/
def search_logs (fs : FS) (term : List Char) (log_type : String) : SearchResult :=
  let target := get_log_file_path log_type
  match fs target with
  | none => ⟨[], 0⟩
  | some content =>
    let res := searchLoop term (readlines content).reverse []
    ⟨res, res.length⟩

/-- The formatted error-log entry `f"[{timestamp}] {message}"` plus the
trailing newline written by `log_error_to_file`. -/
def errorEntry (ts msg : String) : List Char :=
  ("[" ++ ts ++ "] " ++ msg).data ++ ['\n']

/-- `log_error_to_file(message)` of `logger.py`.  `os.path.getsize` on a
missing `ERROR_LOG_FILE` raises `FileNotFoundError` (modelled as `none`);
at or over `MAX_LOG_SIZE` the write is silently dropped. -/
def log_error_to_file (fs : FS) (ts msg : String) : Option FS :=
  match fs ERROR_LOG_FILE with
  | none => none
  | some content =>
    if MAX_LOG_SIZE ≤ content.length then some fs
    else some (fs.update ERROR_LOG_FILE (some (content ++ errorEntry ts msg)))

/-- The characters CPython's `urllib.parse` allows in a URL scheme. -/
def schemeChar (c : Char) : Bool :=
  c.isAlpha || c.isDigit || c == '+' || c == '-' || c == '.'

/-- `urlsplit` first deletes every tab, CR and LF from the URL
(`_UNSAFE_URL_BYTES_TO_REMOVE`). -/
def removeUnsafe (l : List Char) : List Char :=
  l.filter (fun c => !(c == '\t' || c == '\r' || c == '\n'))

/-- The scheme step of `urlsplit`: when the first `:` sits at index `i > 0`,
the first character is an ASCII letter and every character before the `:` is
a scheme character, the scheme is `url[:i]` lower-cased and the rest follows
the `:`; otherwise the scheme is empty and the URL is untouched. -/
def splitScheme (l : List Char) : List Char × List Char :=
  let pre := l.takeWhile (fun c => !(c == ':'))
  if pre.length < l.length ∧ 0 < pre.length ∧
      (pre.headD ' ').isAlpha = true ∧ pre.all schemeChar = true then
    (pre.map Char.toLower, l.drop (pre.length + 1))
  else ([], l)

/-- The netloc step of `urlsplit` (`_splitnetloc`): if the URL starts with
`//`, everything from index 2 up to the first `/`, `?` or `#` is the netloc
and is dropped.  (The `ValueError` urlsplit raises for an unbalanced IPv6
bracket in the netloc, and the NFKC check on non-ASCII netlocs, are outside
this model's domain.) -/
def splitNetloc (l : List Char) : List Char :=
  if l.take 2 = ['/', '/'] then
    (l.drop 2).dropWhile (fun c => !(c == '/' || c == '?' || c == '#'))
  else l

/-- The fragment and query steps of `urlsplit`: the fragment is split at the
first `#`, then the query at the first `?` of what precedes it — so the path
is the part before the first `?` or `#`. -/
def cutQueryFragment (l : List Char) : List Char :=
  l.takeWhile (fun c => !(c == '?' || c == '#'))

/-- `urllib.parse.uses_params`: the schemes (including the empty scheme) for
which `urlparse` splits `;params` off the path. -/
def uses_params : List String :=
  ["", "ftp", "hdl", "prospero", "http", "imap", "https", "shttp", "rtsp",
   "rtspu", "sip", "sips", "mms", "sftp", "tel"]

/-- `_splitparams`: when the path contains a `/`, the params start at the
first `;` of the last segment (no split if that segment has none); when it
does not, they start at the first `;` of the whole path. -/
def splitParams (path : List Char) : List Char :=
  if path.contains ';' then
    if path.contains '/' then
      let lastSeg := (path.reverse.takeWhile (fun c => !(c == '/'))).reverse
      if lastSeg.contains ';' then
        path.take (path.length - lastSeg.length) ++
          lastSeg.takeWhile (fun c => !(c == ';'))
      else path
    else path.takeWhile (fun c => !(c == ';'))
  else path

/-- `urlparse(url_path).path` as computed by CPython 3.11's `urllib.parse`
for a `str` URL with `allow_fragments` left true and no default scheme:
tab/CR/LF removal, scheme split, netloc split, fragment then query split,
and the `;params` split applied when the scheme is in `uses_params`. -/
def urlparsePath (url : String) : String :=
  let l := removeUnsafe url.data
  let (scheme, rest) := splitScheme l
  let path := cutQueryFragment (splitNetloc rest)
  if uses_params.contains ⟨scheme⟩ && path.contains ';' then ⟨splitParams path⟩
  else ⟨path⟩

/-- `is_static_asset(url_path)` of `logger.py`: the lower-cased path ends in
one of `STATIC_ASSET_EXTENSIONS`, or the path is one of `IGNORED_ROUTES`. -/
def is_static_asset (url_path : String) : Bool :=
  let path := urlparsePath url_path
  if STATIC_ASSET_EXTENSIONS.any (fun ext => ext.data.isSuffixOf (pylower path.data)) then
    true
  else if IGNORED_ROUTES.contains path then
    true
  else
    false

/-- `is_bot(user_agent_string)` of `logger.py`: false on an empty header,
otherwise whatever `user_agents.parse(ua).is_bot` reports (the external
library is the oracle `parseBot`). -/
def is_bot (parseBot : String → Bool) (user_agent_string : String) : Bool :=
  if user_agent_string = "" then false else parseBot user_agent_string

/-- Oracle for the one outbound geo-IP HTTP request of `get_geolocation`:
either the parsed JSON fields of a success response (each `none` when the key
is missing, making `data.get` fall back to `"Unknown"`), or a
`requests.RequestException` — which covers connection failures, timeouts and
the `requests.HTTPError` raised by `raise_for_status()` on a non-success
HTTP status. -/
inductive GeoNet where
  | ok (country regionName city : Option String)
  | exn (msg : String)
deriving Repr, DecidableEq

/-- `get_geolocation(ip_address)` of `logger.py`.  The failure branch calls
`log_error_to_file`, whose own `FileNotFoundError` is not caught by
`except requests.RequestException` and so propagates (`none`). -/
def get_geolocation (fs : FS) (ip : String) (ts : String) (net : GeoNet) :
    Option (FS × (String × String × String)) :=
  if ip = "127.0.0.1" ∨ ip = "localhost" then
    some (fs, ("N/A", "N/A", "N/A"))
  else
    match net with
    | .ok country regionName city =>
      some (fs, (country.getD "Unknown", regionName.getD "Unknown", city.getD "Unknown"))
    | .exn e =>
      match log_error_to_file fs ts ("GeoIP failed for " ++ ip ++ ": " ++ e) with
      | none => none
      | some fs2 => some (fs2, ("GeoIP-Failed", "GeoIP-Failed", "GeoIP-Failed"))

/-- The fields of the Flask `request` object read by `log_flask_request`. -/
structure Request where
  method : String
  full_path : String
  referer : Option String
  user_agent : Option String
  remote_addr : Option String

/-- The `LOG_FORMAT.format(...)` access-log line of `logger.py`. -/
def formatEntry (ts ip country region city referrer method url ua : String) : String :=
  "[" ++ ts ++ "] [" ++ ip ++ "] [" ++ country ++ "/" ++ region ++ "/" ++ city ++
    "] [Referrer: " ++ referrer ++ "] [" ++ method ++ "] " ++ url ++ " | Agent: " ++ ua

/-- `log_flask_request(request, response)` of `logger.py`.  `os.path.getsize`
on a missing `LOG_FILE` raises `FileNotFoundError` (`none`); an exception
escaping `get_geolocation` also propagates.  The final `open(LOG_FILE, 'a')`
append is inside `try/except IOError` and is modelled as succeeding. -/
def log_flask_request (fs : FS) (req : Request) (ts : String) (net : GeoNet)
    (parseBot : String → Bool) : Option FS :=
  match fs LOG_FILE with
  | none => none
  | some content =>
    if MAX_LOG_SIZE ≤ content.length then some fs
    else
      let url := req.full_path
      let referrer := req.referer.getD "N/A"
      let user_agent := req.user_agent.getD "N/A"
      let ip := req.remote_addr.getD "Unknown IP"
      if is_static_asset url then some fs
      else if is_bot parseBot user_agent then some fs
      else
        match get_geolocation fs ip ts net with
        | none => none
        | some (fs2, (country, region, city)) =>
          let log_entry := formatEntry ts ip country region city referrer req.method url user_agent
          some (fs2.update LOG_FILE (some (((fs2 LOG_FILE).getD []) ++ log_entry.data ++ ['\n'])))

/-- `os.path.dirname(p)`: the characters before the last `/` (empty when the
path has no `/`). -/
def osDirname (p : String) : String :=
  ⟨(((p.data.reverse.dropWhile (fun c => ¬c = '/')).drop 1).reverse)⟩

/-- `archive_logs(log_type)` of `logger.py`: on an existing target file,
rename it to the timestamped archive name in the same directory, recreate the
active path empty, and return `(archive_path, archive_filename)`; on a
missing target, return the null result and touch nothing.  (`os.rename`
succeeds in the deterministic filesystem model, so the `except OSError`
branch is unreachable here.) -/
def archive_logs (fs : FS) (log_type : String) (ts : String) :
    FS × Option (String × String) :=
  let target := get_log_file_path log_type
  match fs target with
  | none => (fs, none)
  | some content =>
    let filePre := if log_type = "error" then "errors" else "requests"
    let archive_filename := filePre ++ "_archive_" ++ ts ++ ".log"
    let archive_path := osDirname target ++ "/" ++ archive_filename
    let fs1 := (fs.update target none).update archive_path (some content)
    let fs2 := fs1.update target (some [])
    (fs2, some (archive_path, archive_filename))

/-- The JSON dictionary sent by the `/api/logs/stats` branch of
`Handler.do_GET` in `src/server/server.py`: `{'size': get_log_size(log_type)}`. -/
def statsResponseBody (fs : FS) (log_type : String) : List (String × Nat) :=
  [("size", get_log_size fs log_type)]

/-- Result of a Python expression that may raise. -/
inductive PyResult (α : Type) where
  | ok (a : α)
  | exn (name : String)

/-- The call `logger.archive_logs(self, log_type)` in the `/api/logs/archive`
branch of `src/server/server.py`: it passes two positional arguments, but
`archive_logs` in `logger.py` accepts at most one (`log_type`), so Python
raises `TypeError` before the body of `archive_logs` runs and the filesystem
is untouched. -/
def archiveEndpointCall (_fs : FS) (_log_type : String) :
    PyResult (FS × Option (String × String)) :=
  .exn "TypeError"

/-- What the `/api/logs/archive` branch sends back to an authenticated client. -/
inductive EndpointResponse where
  | errorJson (code : Nat) (explain : String)
  | attachment (filename : String) (content : List Char)
  | empty
deriving Repr, DecidableEq

/-- The `/api/logs/archive` branch of `Handler.do_GET` (after `check_auth`):
`try: logger.archive_logs(self, log_type) except Exception: send_error(500, ...)`.
On success the handler would send nothing at all (the result of the call is
discarded and no response is written). -/
def archiveEndpoint (fs : FS) (log_type : String) : FS × EndpointResponse :=
  match archiveEndpointCall fs log_type with
  | .exn e => (fs, .errorJson 500 ("Log archive failed due to an internal error: " ++ e))
  | .ok (fs2, _) => (fs2, .empty)

/-! ### Concrete states used by witnesses -/

/-- The bytes of an access log holding the three lines `A`, `B`, `C`. -/
def contentABC : List Char := "A\nB\nC\n".data

/-- A filesystem whose access log holds the three lines `A`, `B`, `C`. -/
def fsABC : FS := fun p => if p = LOG_FILE then some contentABC else none

/-- A filesystem whose error log is exactly at the size cap. -/
def fsAtCapError : FS :=
  fun p => if p = ERROR_LOG_FILE then some (List.replicate MAX_LOG_SIZE 'a') else none

/-- A filesystem whose access log is exactly at the size cap. -/
def fsAtCapAccess : FS :=
  fun p => if p = LOG_FILE then some (List.replicate MAX_LOG_SIZE 'a') else none

/-- A filesystem whose error log is one byte below the size cap. -/
def fsAlmostCapError : FS :=
  fun p => if p = ERROR_LOG_FILE then some (List.replicate (MAX_LOG_SIZE - 1) 'a') else none

/-- A filesystem whose error log exists and is empty. -/
def fsErrEmpty : FS := fun p => if p = ERROR_LOG_FILE then some [] else none

/-- A sample request from localhost. -/
def reqSample : Request :=
  ⟨"GET", "/index.html", none, none, some "127.0.0.1"⟩

/-! ### Basic lemmas about the embedding -/

theorem FS.update_self (fs : FS) (p : String) (v : Option (List Char)) :
    fs.update p v p = v := by
  simp [FS.update]

theorem FS.update_ne (fs : FS) {p q : String} (v : Option (List Char)) (h : q ≠ p) :
    fs.update p v q = fs q := by
  simp [FS.update, h]

theorem LOG_FILE_ne_ERROR_LOG_FILE : LOG_FILE ≠ ERROR_LOG_FILE := by
  decide

/-- `log_error_to_file` only ever touches `ERROR_LOG_FILE`. -/
theorem log_error_apply_ne {fs fs2 : FS} {ts msg p : String}
    (h : log_error_to_file fs ts msg = some fs2) (hp : p ≠ ERROR_LOG_FILE) :
    fs2 p = fs p := by
  unfold log_error_to_file at h
  cases hE : fs ERROR_LOG_FILE with
  | none => rw [hE] at h; cases h
  | some content =>
    rw [hE] at h
    by_cases hc : MAX_LOG_SIZE ≤ content.length
    · simp only [if_pos hc, Option.some.injEq] at h
      rw [← h]
    · simp only [if_neg hc, Option.some.injEq] at h
      rw [← h, FS.update_ne _ _ hp]

/-- `log_error_to_file` on an existing error log strictly below the cap
appends the whole formatted entry. -/
theorem log_error_eq_of_lt {fs : FS} {ts msg : String} {content : List Char}
    (hE : fs ERROR_LOG_FILE = some content) (hlt : content.length < MAX_LOG_SIZE) :
    log_error_to_file fs ts msg =
      some (fs.update ERROR_LOG_FILE (some (content ++ errorEntry ts msg))) := by
  unfold log_error_to_file
  rw [hE]
  simp [Nat.not_le.mpr hlt]

/-- `log_error_to_file` on an error log at or over the cap drops the write. -/
theorem log_error_eq_of_ge {fs : FS} {ts msg : String} {content : List Char}
    (hE : fs ERROR_LOG_FILE = some content) (hge : MAX_LOG_SIZE ≤ content.length) :
    log_error_to_file fs ts msg = some fs := by
  unfold log_error_to_file
  rw [hE]
  simp [hge]

/-- `log_error_to_file` never creates a file: a path absent before a
successful call is absent after it. -/
theorem log_error_preserves_none {fs fs2 : FS} {ts msg p : String}
    (h : log_error_to_file fs ts msg = some fs2) (hp : fs p = none) :
    fs2 p = none := by
  by_cases hpe : p = ERROR_LOG_FILE
  · subst hpe
    unfold log_error_to_file at h
    rw [hp] at h
    cases h
  · rw [log_error_apply_ne h hpe, hp]

/-- When `get_geolocation` returns, it has touched at most `ERROR_LOG_FILE`. -/
theorem get_geolocation_apply_ne {fs fs2 : FS} {ip ts : String} {net : GeoNet}
    {r : String × String × String} {p : String}
    (h : get_geolocation fs ip ts net = some (fs2, r)) (hp : p ≠ ERROR_LOG_FILE) :
    fs2 p = fs p := by
  unfold get_geolocation at h
  by_cases hl : ip = "127.0.0.1" ∨ ip = "localhost"
  · rw [if_pos hl] at h
    simp only [Option.some.injEq, Prod.mk.injEq] at h
    rw [← h.1]
  · rw [if_neg hl] at h
    cases net with
    | ok country regionName city =>
      simp only [Option.some.injEq, Prod.mk.injEq] at h
      rw [← h.1]
    | exn e =>
      cases hE : log_error_to_file fs ts ("GeoIP failed for " ++ ip ++ ": " ++ e) with
      | none => simp [hE] at h
      | some fs3 =>
        simp only [hE, Option.some.injEq, Prod.mk.injEq] at h
        rw [← h.1]
        exact log_error_apply_ne hE hp

/-- `get_geolocation` never creates a file. -/
theorem get_geolocation_preserves_none {fs fs2 : FS} {ip ts : String} {net : GeoNet}
    {r : String × String × String} {p : String}
    (h : get_geolocation fs ip ts net = some (fs2, r)) (hp : fs p = none) :
    fs2 p = none := by
  by_cases hpe : p = ERROR_LOG_FILE
  · subst hpe
    unfold get_geolocation at h
    by_cases hl : ip = "127.0.0.1" ∨ ip = "localhost"
    · rw [if_pos hl] at h
      simp only [Option.some.injEq, Prod.mk.injEq] at h
      rw [← h.1, hp]
    · rw [if_neg hl] at h
      cases net with
      | ok country regionName city =>
        simp only [Option.some.injEq, Prod.mk.injEq] at h
        rw [← h.1, hp]
      | exn e =>
        cases hE : log_error_to_file fs ts ("GeoIP failed for " ++ ip ++ ": " ++ e) with
        | none => simp [hE] at h
        | some fs3 =>
          simp only [hE, Option.some.injEq, Prod.mk.injEq] at h
          rw [← h.1]
          exact log_error_preserves_none hE hp
  · rw [get_geolocation_apply_ne h hpe, hp]

/-! ### Claims -/

/-- C6: for the loopback/local client addresses `"127.0.0.1"` and
`"localhost"`, `get_geolocation` returns exactly `("N/A","N/A","N/A")` and
leaves the filesystem untouched, whatever the network oracle would have
answered — i.e. no network call is performed. -/
theorem claim_C6 :
    ∀ (fs : FS) (ts : String) (net : GeoNet),
      get_geolocation fs "127.0.0.1" ts net = some (fs, ("N/A", "N/A", "N/A")) ∧
      get_geolocation fs "localhost" ts net = some (fs, ("N/A", "N/A", "N/A")) := by
  intro fs ts net
  constructor <;> simp [get_geolocation]

/-- C4: an append against a log file whose size is at or over
`MAX_LOG_SIZE` is silently discarded: both `log_error_to_file` and
`log_flask_request` return the filesystem unchanged (`some fs`, so no
exception either), leaving the file byte-for-byte identical. -/
theorem claim_C4 :
    (∀ (fs : FS) (ts msg : String) (content : List Char),
      fs ERROR_LOG_FILE = some content → MAX_LOG_SIZE ≤ content.length →
      log_error_to_file fs ts msg = some fs) ∧
    (∀ (fs : FS) (req : Request) (ts : String) (net : GeoNet) (bo : String → Bool)
      (content : List Char),
      fs LOG_FILE = some content → MAX_LOG_SIZE ≤ content.length →
      log_flask_request fs req ts net bo = some fs) := by
  constructor
  · intro fs ts msg content h hle
    unfold log_error_to_file
    rw [h]
    simp [hle]
  · intro fs req ts net bo content h hle
    unfold log_flask_request
    rw [h]
    simp [hle]

/-- Witness for C4: a file of exactly `MAX_LOG_SIZE` bytes stays identical
after one more append, for each of the two writers. -/
theorem claim_C4_witness :
    log_error_to_file fsAtCapError "t" "m" = some fsAtCapError ∧
    log_flask_request fsAtCapAccess reqSample "t" (.exn "x") (fun _ => false) =
      some fsAtCapAccess := by
  constructor
  · exact claim_C4.1 fsAtCapError "t" "m" (List.replicate MAX_LOG_SIZE 'a')
      (by simp [fsAtCapError]) (by simp)
  · exact claim_C4.2 fsAtCapAccess reqSample "t" (.exn "x") (fun _ => false)
      (List.replicate MAX_LOG_SIZE 'a') (by simp [fsAtCapAccess]) (by simp)

/-- The active path for a kind is one of the two log-file constants. -/
theorem get_log_file_path_cases (kind : String) :
    get_log_file_path kind = ERROR_LOG_FILE ∨ get_log_file_path kind = LOG_FILE := by
  unfold get_log_file_path
  by_cases h : kind = "error"
  · exact Or.inl (if_pos h)
  · exact Or.inr (if_neg h)

/-- The timestamped archive path is never the active log path (their lengths
differ for every timestamp). -/
theorem archive_path_ne_target (kind ts : String) :
    osDirname (get_log_file_path kind) ++ "/" ++
      ((if kind = "error" then "errors" else "requests") ++ "_archive_" ++ ts ++ ".log") ≠
      get_log_file_path kind := by
  by_cases h : kind = "error"
  · subst h
    have ht : get_log_file_path "error" = ERROR_LOG_FILE := rfl
    have hi : (if ("error" : String) = "error" then ("errors" : String) else "requests") =
        "errors" := by decide
    have hd : osDirname ERROR_LOG_FILE = "logs" := by decide
    rw [ht, hi, hd]
    intro heq
    have hlen := congrArg (fun s => s.data.length) heq
    simp at hlen
    have hE : ERROR_LOG_FILE.length = 15 := by decide
    omega
  · have ht : get_log_file_path kind = LOG_FILE := if_neg h
    have hi : (if kind = "error" then ("errors" : String) else "requests") = "requests" :=
      if_neg h
    have hd : osDirname LOG_FILE = "logs" := by decide
    rw [ht, hi, hd]
    intro heq
    have hlen := congrArg (fun s => s.data.length) heq
    simp at hlen
    have hL : LOG_FILE.length = 17 := by decide
    omega

/-- On an existing target file, `archive_logs` moves the old bytes to the
archive path, recreates the active path empty, and reports the archive name. -/
theorem archive_logs_exists {fs : FS} {kind ts : String} {content : List Char}
    (h : fs (get_log_file_path kind) = some content) :
    archive_logs fs kind ts =
      (((fs.update (get_log_file_path kind) none).update
          (osDirname (get_log_file_path kind) ++ "/" ++
            ((if kind = "error" then "errors" else "requests") ++ "_archive_" ++ ts ++ ".log"))
          (some content)).update (get_log_file_path kind) (some []),
        some
          (osDirname (get_log_file_path kind) ++ "/" ++
            ((if kind = "error" then "errors" else "requests") ++ "_archive_" ++ ts ++ ".log"),
          (if kind = "error" then "errors" else "requests") ++ "_archive_" ++ ts ++ ".log")) := by
  simp only [archive_logs, h]

/-- On a missing target file, `archive_logs` returns the null result and
leaves the filesystem untouched. -/
theorem archive_logs_missing {fs : FS} {kind ts : String}
    (h : fs (get_log_file_path kind) = none) :
    archive_logs fs kind ts = (fs, none) := by
  simp only [archive_logs, h]

/-- C9: when the active log file of a kind is missing, the pre-write
`os.path.getsize` check of `log_error_to_file` / `log_flask_request` raises
an uncaught `FileNotFoundError` (modelled `none`) instead of creating the
file or silently returning; `archive_logs` on a missing file creates
nothing; no successful logger operation ever creates a file, and the one
exception is `archive_logs` recreating the active file, empty, right after
its rename. -/
theorem claim_C9 :
    (∀ (fs : FS) (ts msg : String),
      fs ERROR_LOG_FILE = none → log_error_to_file fs ts msg = none) ∧
    (∀ (fs : FS) (req : Request) (ts : String) (net : GeoNet) (bo : String → Bool),
      fs LOG_FILE = none → log_flask_request fs req ts net bo = none) ∧
    (∀ (fs : FS) (kind ts : String),
      fs (get_log_file_path kind) = none → archive_logs fs kind ts = (fs, none)) ∧
    (∀ (fs fs2 : FS) (ts msg p : String),
      log_error_to_file fs ts msg = some fs2 → fs p = none → fs2 p = none) ∧
    (∀ (fs fs2 : FS) (req : Request) (ts : String) (net : GeoNet) (bo : String → Bool)
      (p : String),
      log_flask_request fs req ts net bo = some fs2 → fs p = none → fs2 p = none) ∧
    (∀ (fs : FS) (kind ts : String) (content : List Char),
      fs (get_log_file_path kind) = some content →
      (archive_logs fs kind ts).1 (get_log_file_path kind) = some []) := by
  refine ⟨?_, ?_, ?_, ?_, ?_, ?_⟩
  · intro fs ts msg h
    unfold log_error_to_file
    rw [h]
  · intro fs req ts net bo h
    unfold log_flask_request
    rw [h]
  · intro fs kind ts h
    exact archive_logs_missing h
  · intro fs fs2 ts msg p h hp
    exact log_error_preserves_none h hp
  · intro fs fs2 req ts net bo p h hp
    unfold log_flask_request at h
    cases hL : fs LOG_FILE with
    | none => rw [hL] at h; cases h
    | some content =>
      rw [hL] at h
      have hpL : p ≠ LOG_FILE := by
        intro hpe
        rw [hpe, hL] at hp
        cases hp
      by_cases hc : MAX_LOG_SIZE ≤ content.length
      · simp only [if_pos hc, Option.some.injEq] at h
        rw [← h, hp]
      · simp only [if_neg hc] at h
        by_cases hs : is_static_asset req.full_path = true
        · rw [if_pos hs] at h
          cases h
          exact hp
        · rw [if_neg hs] at h
          by_cases hb : is_bot bo (req.user_agent.getD "N/A") = true
          · rw [if_pos hb] at h
            cases h
            exact hp
          · rw [if_neg hb] at h
            cases hG : get_geolocation fs (req.remote_addr.getD "Unknown IP") ts net with
            | none => simp [hG] at h
            | some pr =>
              obtain ⟨fsg, country, region, city⟩ := pr
              simp only [hG, Option.some.injEq] at h
              rw [← h, FS.update_ne _ _ hpL]
              exact get_geolocation_preserves_none hG hp
  · intro fs kind ts content h
    rw [archive_logs_exists h]
    exact FS.update_self _ _ _

/-- Witness for C9: concrete instances of each conjunct — missing files make
the writers raise, archiving a missing file touches nothing, the writers
create no file even when they succeed, and archiving an existing file leaves
a fresh empty active file. -/
theorem claim_C9_witness :
    log_error_to_file (fun _ => none) "t" "m" = none ∧
    log_flask_request (fun _ => none) reqSample "t" (.exn "x") (fun _ => false) = none ∧
    archive_logs (fun _ => none) "requests" "20240101_000000" = ((fun _ => none : FS), none) ∧
    fsAtCapError LOG_FILE = none ∧
    fsAtCapAccess ERROR_LOG_FILE = none ∧
    (archive_logs fsABC "requests" "20240101_000000").1 LOG_FILE = some [] := by
  refine ⟨?_, ?_, ?_, ?_, ?_, ?_⟩
  · exact claim_C9.1 (fun _ => none) "t" "m" rfl
  · exact claim_C9.2.1 (fun _ => none) reqSample "t" (.exn "x") (fun _ => false) rfl
  · exact claim_C9.2.2.1 (fun _ => none) "requests" "20240101_000000" (by decide)
  · exact claim_C9.2.2.2.1 fsAtCapError fsAtCapError "t" "m" LOG_FILE
      (by
        unfold log_error_to_file
        have h : fsAtCapError ERROR_LOG_FILE = some (List.replicate MAX_LOG_SIZE 'a') := by
          simp [fsAtCapError]
        rw [h]
        simp)
      (by simp [fsAtCapError]; decide)
  · exact claim_C9.2.2.2.2.1 fsAtCapAccess fsAtCapAccess reqSample "t" (.exn "x")
      (fun _ => false) ERROR_LOG_FILE
      (by
        unfold log_flask_request
        have h : fsAtCapAccess LOG_FILE = some (List.replicate MAX_LOG_SIZE 'a') := by
          simp [fsAtCapAccess]
        rw [h]
        simp)
      (by simp [fsAtCapAccess]; decide)
  · exact claim_C9.2.2.2.2.2 fsABC "requests" "20240101_000000" contentABC (by decide)

/-- C1: archiving a kind whose active file exists with content of N bytes
leaves the active file existing and empty, and produces a differently named
archive file holding exactly those N bytes; archiving a kind whose active
file does not exist returns the null result and creates no file. -/
theorem claim_C1 :
    (∀ (fs : FS) (kind ts : String) (content : List Char),
      fs (get_log_file_path kind) = some content →
      ∃ apath aname,
        (archive_logs fs kind ts).2 = some (apath, aname) ∧
        apath ≠ get_log_file_path kind ∧
        (archive_logs fs kind ts).1 (get_log_file_path kind) = some [] ∧
        (archive_logs fs kind ts).1 apath = some content) ∧
    (∀ (fs : FS) (kind ts : String),
      fs (get_log_file_path kind) = none →
      archive_logs fs kind ts = (fs, none)) := by
  constructor
  · intro fs kind ts content h
    refine ⟨osDirname (get_log_file_path kind) ++ "/" ++
      ((if kind = "error" then "errors" else "requests") ++ "_archive_" ++ ts ++ ".log"),
      (if kind = "error" then "errors" else "requests") ++ "_archive_" ++ ts ++ ".log",
      ?_, archive_path_ne_target kind ts, ?_, ?_⟩
    · rw [archive_logs_exists h]
    · rw [archive_logs_exists h]
      exact FS.update_self _ _ _
    · rw [archive_logs_exists h]
      exact (FS.update_ne _ _ (archive_path_ne_target kind ts)).trans (FS.update_self _ _ _)
  · intro fs kind ts h
    exact archive_logs_missing h

/-- Witness for C1: archiving the three-line access log yields an empty
active file and an archive holding the old six bytes; archiving a missing
error log returns the null result on an untouched filesystem. -/
theorem claim_C1_witness :
    (archive_logs fsABC "requests" "20240101_000000").2 =
      some ("logs/requests_archive_20240101_000000.log",
        "requests_archive_20240101_000000.log") ∧
    (archive_logs fsABC "requests" "20240101_000000").1 LOG_FILE = some [] ∧
    (archive_logs fsABC "requests" "20240101_000000").1
      "logs/requests_archive_20240101_000000.log" = some contentABC ∧
    archive_logs (fun _ => none) "error" "20240101_000000" = ((fun _ => none : FS), none) := by
  obtain ⟨apath, aname, h1, hne, h2, h3⟩ :=
    claim_C1.1 fsABC "requests" "20240101_000000" contentABC (by decide)
  exact ⟨by decide, by decide, by decide,
    claim_C1.2 (fun _ => none) "error" "20240101_000000" rfl⟩

/-- Counterexample to C3 as stated: with the error log file absent, a failed
lookup makes `get_geolocation` raise `FileNotFoundError` out of
`log_error_to_file`'s `os.path.getsize` check (modelled `none`) instead of
returning the `"GeoIP-Failed"` triple — so it does not "never raise". -/
theorem claim_C3_counterexample :
    get_geolocation (fun _ => none) "8.8.8.8" "2024-01-01 00:00:00" (.exn "timeout") =
      none := by
  rfl

/-- C3 (amended): when the lookup fails and the error log file exists,
`get_geolocation` returns exactly the `"GeoIP-Failed"` triple without
raising, and records the failure to the error log provided the error log is
below its size cap (at or over the cap the record is silently dropped);
when the error log file does not exist, the failure path raises
`FileNotFoundError` to the caller. -/
theorem claim_C3 :
    (∀ (fs : FS) (ip ts e : String) (content : List Char),
      ¬(ip = "127.0.0.1" ∨ ip = "localhost") →
      fs ERROR_LOG_FILE = some content →
      (content.length < MAX_LOG_SIZE →
        get_geolocation fs ip ts (.exn e) =
          some (fs.update ERROR_LOG_FILE
              (some (content ++ errorEntry ts ("GeoIP failed for " ++ ip ++ ": " ++ e))),
            ("GeoIP-Failed", "GeoIP-Failed", "GeoIP-Failed"))) ∧
      (MAX_LOG_SIZE ≤ content.length →
        get_geolocation fs ip ts (.exn e) =
          some (fs, ("GeoIP-Failed", "GeoIP-Failed", "GeoIP-Failed")))) ∧
    (∀ (fs : FS) (ip ts e : String),
      ¬(ip = "127.0.0.1" ∨ ip = "localhost") →
      fs ERROR_LOG_FILE = none →
      get_geolocation fs ip ts (.exn e) = none) := by
  constructor
  · intro fs ip ts e content hl hE
    constructor
    · intro hlt
      unfold get_geolocation
      rw [if_neg hl]
      simp [log_error_eq_of_lt hE hlt]
    · intro hge
      unfold get_geolocation
      rw [if_neg hl]
      simp [log_error_eq_of_ge hE hge]
  · intro fs ip ts e hl hE
    unfold get_geolocation
    rw [if_neg hl]
    have hlog : log_error_to_file fs ts ("GeoIP failed for " ++ ip ++ ": " ++ e) = none := by
      unfold log_error_to_file
      rw [hE]
    simp [hlog]

/-- Witness for C3: a failed lookup against an existing, empty error log
returns the sentinel triple and appends the failure record; the same lookup
against a filesystem with no error log raises. -/
theorem claim_C3_witness :
    get_geolocation fsErrEmpty "8.8.8.8" "t" (.exn "x") =
      some (fsErrEmpty.update ERROR_LOG_FILE
          (some ([] ++ errorEntry "t" ("GeoIP failed for " ++ "8.8.8.8" ++ ": " ++ "x"))),
        ("GeoIP-Failed", "GeoIP-Failed", "GeoIP-Failed")) ∧
    get_geolocation (fun _ => none) "8.8.8.8" "t" (.exn "x") = none := by
  constructor
  · exact (claim_C3.1 fsErrEmpty "8.8.8.8" "t" "x" [] (by decide) rfl).1 (by decide)
  · exact claim_C3.2 (fun _ => none) "8.8.8.8" "t" "x" (by decide) rfl

/-- One append to an error log one byte below the cap leaves it strictly
above the cap. -/
theorem almostCap_overflow :
    log_error_to_file fsAlmostCapError "t" "x" =
      some (fsAlmostCapError.update ERROR_LOG_FILE
        (some (List.replicate (MAX_LOG_SIZE - 1) 'a' ++ errorEntry "t" "x"))) ∧
    MAX_LOG_SIZE < (List.replicate (MAX_LOG_SIZE - 1) 'a' ++ errorEntry "t" "x").length := by
  constructor
  · exact log_error_eq_of_lt (by simp [fsAlmostCapError])
      (by simp only [List.length_replicate]; unfold MAX_LOG_SIZE; omega)
  · rw [List.length_append]
    simp only [List.length_replicate]
    have he : (errorEntry "t" "x").length = 6 := by decide
    unfold MAX_LOG_SIZE
    omega

/-- C10: the cap is checked before the write and the whole entry is then
appended unconditionally, so a file strictly below `MAX_LOG_SIZE` can end
strictly above it after one append; the maintained bound is
`size < MAX_LOG_SIZE + length of one formatted entry`, not
`size ≤ MAX_LOG_SIZE`. -/
theorem claim_C10 :
    (∀ (fs : FS) (ts msg : String) (content : List Char),
      fs ERROR_LOG_FILE = some content → content.length < MAX_LOG_SIZE →
      log_error_to_file fs ts msg =
        some (fs.update ERROR_LOG_FILE (some (content ++ errorEntry ts msg))) ∧
      (content ++ errorEntry ts msg).length < MAX_LOG_SIZE + (errorEntry ts msg).length) ∧
    (∀ (fs fsg : FS) (req : Request) (ts : String) (net : GeoNet) (bo : String → Bool)
      (content : List Char) (country region city : String),
      fs LOG_FILE = some content → content.length < MAX_LOG_SIZE →
      is_static_asset req.full_path = false →
      is_bot bo (req.user_agent.getD "N/A") = false →
      get_geolocation fs (req.remote_addr.getD "Unknown IP") ts net =
        some (fsg, (country, region, city)) →
      log_flask_request fs req ts net bo =
        some (fsg.update LOG_FILE (some (content ++
          (formatEntry ts (req.remote_addr.getD "Unknown IP") country region city
            (req.referer.getD "N/A") req.method req.full_path
            (req.user_agent.getD "N/A")).data ++ ['\n']))) ∧
      (content ++
          (formatEntry ts (req.remote_addr.getD "Unknown IP") country region city
            (req.referer.getD "N/A") req.method req.full_path
            (req.user_agent.getD "N/A")).data ++ ['\n']).length <
        MAX_LOG_SIZE +
          ((formatEntry ts (req.remote_addr.getD "Unknown IP") country region city
            (req.referer.getD "N/A") req.method req.full_path
            (req.user_agent.getD "N/A")).data ++ ['\n']).length) ∧
    (log_error_to_file fsAlmostCapError "t" "x" =
      some (fsAlmostCapError.update ERROR_LOG_FILE
        (some (List.replicate (MAX_LOG_SIZE - 1) 'a' ++ errorEntry "t" "x"))) ∧
     MAX_LOG_SIZE < (List.replicate (MAX_LOG_SIZE - 1) 'a' ++ errorEntry "t" "x").length) := by
  refine ⟨?_, ?_, ?_, ?_⟩
  · intro fs ts msg content hE hlt
    constructor
    · exact log_error_eq_of_lt hE hlt
    · rw [List.length_append]
      omega
  · intro fs fsg req ts net bo content country region city hL hlt hs hb hG
    have hfsgL : fsg LOG_FILE = some content := by
      rw [get_geolocation_apply_ne hG LOG_FILE_ne_ERROR_LOG_FILE, hL]
    constructor
    · unfold log_flask_request
      rw [hL]
      simp only [if_neg (by omega : ¬MAX_LOG_SIZE ≤ content.length)]
      rw [hs]
      simp only [Bool.false_eq_true, if_false]
      rw [hb]
      simp only [Bool.false_eq_true, if_false]
      simp only [hG, hfsgL, Option.getD_some, List.append_assoc]
    · simp only [List.length_append]
      omega
  · exact almostCap_overflow.1
  · exact almostCap_overflow.2

/-- A plain page request from localhost. -/
def reqPlain : Request := ⟨"GET", "/home", none, none, some "127.0.0.1"⟩

/-- Witness for C10: appending to an empty error log appends the whole entry
and respects the `MAX_LOG_SIZE + entry` bound; likewise one full
`log_flask_request` append to the three-line access log. -/
theorem claim_C10_witness :
    (log_error_to_file fsErrEmpty "t" "x" =
      some (fsErrEmpty.update ERROR_LOG_FILE (some ([] ++ errorEntry "t" "x"))) ∧
     ([] ++ errorEntry "t" "x").length < MAX_LOG_SIZE + (errorEntry "t" "x").length) ∧
    log_flask_request fsABC reqPlain "t" (.exn "boom") (fun _ => false) =
      some (fsABC.update LOG_FILE (some (contentABC ++
        (formatEntry "t" "127.0.0.1" "N/A" "N/A" "N/A" "N/A" "GET" "/home" "N/A").data ++
        ['\n']))) := by
  constructor
  · exact claim_C10.1 fsErrEmpty "t" "x" [] rfl (by decide)
  · exact (claim_C10.2.1 fsABC fsABC reqPlain "t" (.exn "boom") (fun _ => false) contentABC
      "N/A" "N/A" "N/A" rfl (by decide) (by decide) rfl rfl).1

/-- Counterexample to C7 as stated: the stats endpoint's JSON body has no
`max_size` field at all — `server.py` sends only `{'size': ...}`. -/
theorem claim_C7_counterexample :
    (statsResponseBody (fun _ => none) "requests").lookup "max_size" = none := by
  rfl

/-- C7 (amended): a successful GET of the stats endpoint returns a JSON
object whose `size` field equals the log file's length in bytes (0 if the
file is absent); no `max_size` field is included in the response. -/
theorem claim_C7 :
    ∀ (fs : FS) (kind : String),
      (statsResponseBody fs kind).lookup "size" = some (get_log_size fs kind) ∧
      (statsResponseBody fs kind).lookup "max_size" = none ∧
      (fs (get_log_file_path kind) = none → get_log_size fs kind = 0) ∧
      (∀ c, fs (get_log_file_path kind) = some c → get_log_size fs kind = c.length) := by
  intro fs kind
  refine ⟨rfl, rfl, ?_, ?_⟩
  · intro h
    unfold get_log_size
    rw [h]
  · intro c h
    unfold get_log_size
    rw [h]

/-- Witness for C7: a missing file reports size 0, the three-line access log
reports its six bytes. -/
theorem claim_C7_witness :
    get_log_size (fun _ => none) "requests" = 0 ∧
    get_log_size fsABC "requests" = 6 := by
  constructor
  · exact (claim_C7 (fun _ => none) "requests").2.2.1 rfl
  · have h := (claim_C7 fsABC "requests").2.2.2 contentABC (by decide)
    rw [h]
    decide

/-- C8: the `/api/logs/archive` endpoint never rotates anything and never
returns an attachment: the call `logger.archive_logs(self, log_type)` passes
two positional arguments to the one-argument `archive_logs`, so Python
raises `TypeError`, the handler's `except Exception` turns it into a 500
JSON error, and the filesystem is untouched. -/
theorem claim_C8 :
    ∀ (fs : FS) (kind fname : String) (content : List Char),
      archiveEndpoint fs kind =
        (fs, .errorJson 500 ("Log archive failed due to an internal error: " ++ "TypeError")) ∧
      (archiveEndpoint fs kind).2 ≠ EndpointResponse.attachment fname content := by
  intro fs kind fname content
  constructor
  · rfl
  · simp [archiveEndpoint, archiveEndpointCall]

/-- A suffix made of characters fixed by lower-casing is still a suffix
after the larger list is lower-cased. -/
theorem lower_suffix {ext l : List Char} (hl : pylower ext = ext) (h : ext <:+ l) :
    ext <:+ pylower l := by
  obtain ⟨t, rfl⟩ := h
  refine ⟨pylower t, ?_⟩
  simp only [pylower, List.map_append]
  rw [show List.map Char.toLower ext = ext from hl]

/-- Every extension in the allow-list is already lower-case. -/
theorem static_ext_lower {ext : String} (hmem : ext ∈ STATIC_ASSET_EXTENSIONS) :
    pylower ext.data = ext.data := by
  unfold STATIC_ASSET_EXTENSIONS at hmem
  fin_cases hmem <;> decide

/-- A path ending in an allow-listed extension is classified static. -/
theorem is_static_asset_of_ext {url ext : String}
    (hmem : ext ∈ STATIC_ASSET_EXTENSIONS)
    (hsuf : ext.data.isSuffixOf (urlparsePath url).data = true) :
    is_static_asset url = true := by
  unfold is_static_asset
  have h1 : ext.data <:+ (urlparsePath url).data := List.isSuffixOf_iff_suffix.mp hsuf
  have h2 : ext.data <:+ pylower (urlparsePath url).data :=
    lower_suffix (static_ext_lower hmem) h1
  have hany : STATIC_ASSET_EXTENSIONS.any
      (fun e => e.data.isSuffixOf (pylower (urlparsePath url).data)) = true :=
    List.any_eq_true.mpr ⟨ext, hmem, List.isSuffixOf_iff_suffix.mpr h2⟩
  simp [hany]

/-- A path equal to an ignored route is classified static. -/
theorem is_static_asset_of_route {url : String}
    (hmem : urlparsePath url ∈ IGNORED_ROUTES) :
    is_static_asset url = true := by
  unfold is_static_asset
  have hc : IGNORED_ROUTES.contains (urlparsePath url) = true :=
    List.elem_eq_true_of_mem hmem
  by_cases hany : STATIC_ASSET_EXTENSIONS.any
      (fun e => e.data.isSuffixOf (pylower (urlparsePath url).data)) = true
  · simp [hany]
  · simp [hany, hc]
    exact hmem

/-- C5: a completed request whose path (query string stripped) ends in one
of the known static-asset extensions, or exactly equals an ignored route,
appends nothing: `log_flask_request` leaves the whole filesystem — in
particular the access log — unchanged. -/
theorem claim_C5 :
    ∀ (fs : FS) (req : Request) (ts : String) (net : GeoNet) (bo : String → Bool)
      (content : List Char),
      fs LOG_FILE = some content →
      ((∃ ext ∈ STATIC_ASSET_EXTENSIONS,
          ext.data.isSuffixOf (urlparsePath req.full_path).data = true) ∨
        urlparsePath req.full_path ∈ IGNORED_ROUTES) →
      log_flask_request fs req ts net bo = some fs := by
  intro fs req ts net bo content hL hcond
  have hsa : is_static_asset req.full_path = true := by
    rcases hcond with ⟨ext, hmem, hsuf⟩ | hroute
    · exact is_static_asset_of_ext hmem hsuf
    · exact is_static_asset_of_route hroute
  unfold log_flask_request
  rw [hL]
  by_cases hc : MAX_LOG_SIZE ≤ content.length
  · simp [hc]
  · simp [hc, hsa]

/-- `urlparse('/page;.css').path = '/page'`: the `;params` split drops the
`;`-suffix of the last segment, so this request is not classified static
(the code logs it). -/
theorem urlparsePath_params_example :
    urlparsePath "/page;.css" = "/page" ∧ is_static_asset "/page;.css" = false := by
  decide

/-- `urlparse('//host/logs').path = '/logs'`: the netloc is split off, so
this request hits the ignored-routes check and is classified static. -/
theorem urlparsePath_netloc_example :
    urlparsePath "//host/logs" = "/logs" ∧ is_static_asset "//host/logs" = true := by
  decide

/-- A stylesheet request (with query string) from an external address. -/
def reqCss : Request := ⟨"GET", "/style.css?v=1", none, none, some "1.2.3.4"⟩

/-- A request for the ignored admin log-viewer route. -/
def reqLogs : Request := ⟨"GET", "/logs", none, none, some "1.2.3.4"⟩

/-- Witness for C5: a `.css` fetch and a `/logs` fetch both leave the
filesystem unchanged. -/
theorem claim_C5_witness :
    log_flask_request fsABC reqCss "t" (.exn "x") (fun _ => true) = some fsABC ∧
    log_flask_request fsABC reqLogs "t" (.exn "x") (fun _ => true) = some fsABC := by
  constructor
  · exact claim_C5 fsABC reqCss "t" (.exn "x") (fun _ => true) contentABC (by decide)
      (Or.inl ⟨".css", by decide, by decide⟩)
  · exact claim_C5 fsABC reqLogs "t" (.exn "x") (fun _ => true) contentABC (by decide)
      (Or.inr (by decide))

/-- The collecting loop of `search_logs` is append-filter-map-take: starting
from fewer than `MAX_RETURN` collected results, it appends the stripped
matching lines, truncated at the cap. -/
theorem searchLoop_eq (term : List Char) :
    ∀ (lines acc : List (List Char)), acc.length < MAX_RETURN →
      searchLoop term lines acc =
        acc ++ (((lines.filter (fun l => pyIn (pylower term) (pylower l))).map pystrip).take
          (MAX_RETURN - acc.length)) := by
  intro lines
  induction lines with
  | nil =>
    intro acc h
    simp [searchLoop]
  | cons l ls ih =>
    intro acc h
    by_cases hp : pyIn (pylower term) (pylower l) = true
    · simp only [searchLoop, hp, if_true, List.filter_cons, List.map_cons]
      have hlen : (acc ++ [pystrip l]).length = acc.length + 1 := by simp
      by_cases hb : MAX_RETURN ≤ acc.length + 1
      · rw [hlen, if_pos hb]
        have h1 : MAX_RETURN - acc.length = 0 + 1 := by omega
        rw [h1, List.take_succ_cons, List.take_zero]
      · rw [hlen, if_neg hb]
        rw [ih (acc ++ [pystrip l]) (by simp; omega)]
        rw [hlen]
        have h1 : MAX_RETURN - acc.length = (MAX_RETURN - (acc.length + 1)) + 1 := by omega
        rw [h1, List.take_succ_cons]
        simp
    · rw [Bool.not_eq_true] at hp
      simp only [searchLoop, hp, Bool.false_eq_true, if_false, List.filter_cons]
      exact ih acc h

/-- `search_logs` on an existing file returns the stripped matching lines in
reverse file order, truncated at `MAX_RETURN`, with `count` their number. -/
theorem search_logs_exists_eq {fs : FS} {kind : String} {term content : List Char}
    (h : fs (get_log_file_path kind) = some content) :
    search_logs fs term kind =
      ⟨(((readlines content).reverse.filter
          (fun l => pyIn (pylower term) (pylower l))).map pystrip).take MAX_RETURN,
        ((((readlines content).reverse.filter
          (fun l => pyIn (pylower term) (pylower l))).map pystrip).take MAX_RETURN).length⟩ := by
  simp only [search_logs, h]
  rw [searchLoop_eq term ((readlines content).reverse) [] (by decide)]
  simp

/-- C2: `search_logs` returns exactly the lines of the log file containing
the term case-insensitively, newest first (reverse file order), capped at
`MAX_RETURN = 1000`, with `count` equal to the number of returned results;
on the file holding the lines `A`, `B`, `C` the empty term yields
`["C","B","A"]` with count 3. -/
theorem claim_C2 :
    (∀ (fs : FS) (kind : String) (term content : List Char),
      fs (get_log_file_path kind) = some content →
      search_logs fs term kind =
        ⟨(((readlines content).reverse.filter
            (fun l => pyIn (pylower term) (pylower l))).map pystrip).take MAX_RETURN,
          ((((readlines content).reverse.filter
            (fun l => pyIn (pylower term) (pylower l))).map pystrip).take MAX_RETURN).length⟩) ∧
    (∀ (fs : FS) (term : List Char) (kind : String),
      (search_logs fs term kind).count = (search_logs fs term kind).results.length ∧
      (search_logs fs term kind).results.length ≤ MAX_RETURN) ∧
    search_logs fsABC [] "requests" = ⟨[['C'], ['B'], ['A']], 3⟩ := by
  refine ⟨?_, ?_, ?_⟩
  · intro fs kind term content h
    exact search_logs_exists_eq h
  · intro fs term kind
    cases hT : fs (get_log_file_path kind) with
    | none =>
      simp [search_logs, hT]
    | some content =>
      rw [search_logs_exists_eq hT]
      exact ⟨rfl, List.length_take_le _ _⟩
  · decide

/-- Witness for C2: searching the three-line log for `b` finds the single
matching line, stripped. -/
theorem claim_C2_witness :
    search_logs fsABC ['b'] "requests" = ⟨[['B']], 1⟩ := by
  rw [claim_C2.1 fsABC "requests" ['b'] contentABC (by decide)]
  decide

end Mayaglyphs
